import Mathlib

/-!
Verification of the gobayeux v2 Bayeux client (Go sources: `client.go`,
`bayeux_transport_http.go`, `bayeux_transport_websocket.go`,
`bayeux_transport.go`) via a shallow embedding in Lean 4.

Conventions of the embedding:
* Go strings become `String`; `[]byte` becomes `List Nat`; channel names
  (`Channel`) become `String`.
* Stateful Go code becomes explicit state passing; the selected branch of a
  `select` becomes a `LoopEvent`, and the result of a blocking protocol call
  is carried inside the event (the environment supplies it).
* Go channels used as queues are modelled by their contents (`List _`) or, for
  claims about capacity and closing, by explicit capacity/closed fields.
* Messages delivered to a queue, and triggers enqueued, are recorded as
  `LoopAction`s instead of being pushed into concurrently-read channels.
-/

namespace Gobayeux

/-- Channel constants from the repository (`/meta/...` reserved channels and
the zero value of the `Channel` string type). -/
def emptyChannel : String := ""

def MetaHandshake : String := "/meta/handshake"

def MetaConnect : String := "/meta/connect"

def MetaSubscribe : String := "/meta/subscribe"

def MetaUnsubscribe : String := "/meta/unsubscribe"

def MetaDisconnect : String := "/meta/disconnect"

def ConnectionTypeLongPolling : String := "long-polling"

def ConnectionTypeWebsocket : String := "websocket"

/-- Modelled from the spec: the `advice` block of a Message (`messages.go` is
not under `src/`): reconnect directive string and interval in milliseconds.
The Go zero value has an empty reconnect string and zero interval. -/
structure Advice where
  reconnect : String := ""
  interval : Nat := 0
deriving DecidableEq

/-- Modelled from the spec: `Advice.ShouldHandshake()` is true exactly when
the server-supplied reconnect directive is "handshake". -/
def shouldHandshake (a : Advice) : Bool :=
  a.reconnect == "handshake"

/-- One protocol envelope (`Message` in `messages.go`, which is not under
`src/`; fields per the spec wire format: channel, clientId, successful,
error, advice). Field defaults are the Go zero values. -/
structure Message where
  channel : String := ""
  clientID : String := ""
  successful : Bool := false
  error : String := ""
  advice : Advice := {}
  version : String := ""
  supportedConnectionTypes : List String := []
  subscription : List String := []
  connectionType : String := ""
deriving DecidableEq

/-- Errors produced by the protocol client and the session loop. Constructors
mirror the error types named in the repository (`errors.go` is not under
`src/`; shapes follow the spec taxonomy and the construction sites visible in
`bayeux_transport_websocket.go`). -/
inductive BCError where
  | clientNotConnected
  | tooManyMessages
  | badChannel
  | handshakeServerError (serverError : String)
  | handshakeFailed (cause : BCError)
  | connectionFailed (cause : BCError)
  | failedToConnect
  | subscriptionFailed (channels : List String) (cause : BCError)
  | unsubscribeFailed (channels : List String) (cause : BCError)
  | disconnectFailed (cause : BCError)
  | disconnectFailedNoDetail
  | subscribeServerError (serverError : String)
  | unsubscribeServerError (serverError : String)
  | transportErr (message : String)
  | invalidChannel (channel : String)
  | alreadySubscribed (channel : String)
deriving DecidableEq

/-- Modelled from the spec: `subscriptionsMap` lookup (`subscriptions.go` is
not under `src/`): at most one delivery queue per channel; `Get` fails when
the channel has no registered queue.  Queues are identified by `Nat` ids. -/
def subsGet (subs : List (String × Nat)) (ch : String) : Option Nat :=
  (subs.find? (fun p => p.1 == ch)).map Prod.snd

/-- Modelled from the spec: `subscriptionsMap.Add` — adding a duplicate
channel is an error, not a silent overwrite. -/
def subsAdd (subs : List (String × Nat)) (ch : String) (q : Nat) :
    Except BCError (List (String × Nat)) :=
  if (subs.find? (fun p => p.1 == ch)).isSome then
    .error (.alreadySubscribed ch)
  else
    .ok (subs ++ [(ch, q)])

/-- Modelled from the spec: `subscriptionsMap.Remove` deletes a channel's
registration (removing an absent channel is a no-op). -/
def subsRemove (subs : List (String × Nat)) (ch : String) : List (String × Nat) :=
  subs.filter (fun p => p.1 != ch)

/-- Effects the session loop performs on its environment; recorded instead of
executed. `enqueueConnect` is the non-blocking best-effort send of
`enqueueConnectRequest` (`client.go:329`); `enqueueHandshake` is the blocking
send on the handshake-trigger queue (`client.go:266`); `scheduleConnect` is
the delayed goroutine spawned per advice (`client.go:269`); `deliver` is a
batch sent to the registered delivery queue (`client.go:299`). -/
inductive LoopAction where
  | enqueueConnect
  | enqueueHandshake
  | scheduleConnect (intervalMs : Nat)
  | deliver (queue : Nat) (batch : List Message)
deriving DecidableEq

/-- Errors that terminate the session loop (`poll` returning non-nil). -/
inductive LoopError where
  | ctx (code : Nat)
  | proto (e : BCError)
  | missingSubscription (channel : String)
deriving DecidableEq

/-- The connect-reply delivery loop of `poll` (`client.go:283-303`): walk the
reply sequence keeping the current run's channel in `lastChannel` and the run
itself in `batch`; on a channel change, look up the finished run's delivery
queue (fatal if unregistered) and deliver the run; the Go loop ends when the
message list is exhausted, and the batch in hand at that point is never
delivered (there is no flush after the `for` loop). -/
def pollDeliverLoop (subs : List (String × Nat)) :
    List Message → String → List Message → Except LoopError (List LoopAction)
  | [], _, _ => .ok []
  | m :: rest, lastChannel, batch =>
    if lastChannel == emptyChannel then
      pollDeliverLoop subs rest m.channel (batch ++ [m])
    else if m.channel == lastChannel then
      pollDeliverLoop subs rest lastChannel (batch ++ [m])
    else
      match subsGet subs lastChannel with
      | none => .error (.missingSubscription lastChannel)
      | some q =>
        match pollDeliverLoop subs rest m.channel [m] with
        | .error e => .error e
        | .ok acts => .ok (LoopAction.deliver q batch :: acts)

/-- C1. The session loop partitions a connect reply into contiguous
same-channel runs and delivers every run — including the final one — to the
registered queues, so `[{channel:/a},{channel:/a},{channel:/b}]` yields
`[/a,/a]` to `/a`'s queue and `[/b]` to `/b`'s queue.  The code violates
this: with `/a` registered on queue 1 and `/b` on queue 2, the delivery loop
emits only the `[/a,/a]` batch; the final run `[/b]` is still in `batch`
when the loop ends and is never delivered (`client.go:286-303` has no flush
after the loop). -/
theorem connectReplyFinalRunDropped :
    pollDeliverLoop [("/a", 1), ("/b", 2)]
      [{ channel := "/a", clientID := "m1" },
       { channel := "/a", clientID := "m2" },
       { channel := "/b", clientID := "m3" }]
      emptyChannel []
    = .ok [LoopAction.deliver 1
        [{ channel := "/a", clientID := "m1" },
         { channel := "/a", clientID := "m2" }]] := by
  rfl

/-! ## HTTP transport (`bayeux_transport_http.go`) -/

/-- An HTTP response as seen by `parseResponse`: status code, status text and
the (already in-memory) body bytes.  The Go `io.ReadAll` error branch has no
counterpart here, since reading a `List Nat` cannot fail. -/
structure HttpResponse where
  statusCode : Nat
  status : String
  body : List Nat
deriving DecidableEq

/-- Outcome of an HTTP-transport `request` call.  `panicNilDeref` models the
Go runtime panic of dereferencing a nil `*http.Response`
(`response.StatusCode` at `bayeux_transport_http.go:64`); `decodeErr` models
a JSON decoding failure of a 200 body. -/
inductive HttpResult where
  | ok (ms : List Message)
  | badResponse (statusCode : Nat) (status : String) (body : Option (List Nat))
  | panicNilDeref
  | decodeErr
deriving DecidableEq

/-- `BayeuxTransportHttp.parseResponse` (`bayeux_transport_http.go:69-86`):
a non-200 status yields `BadResponseError{code, status, body}`; a 200 status
decodes the body as a message batch (`decode` stands for
`json.Decoder.Decode`). -/
def parseResponse (decode : List Nat → Option (List Message)) (resp : HttpResponse) :
    HttpResult :=
  if resp.statusCode != 200 then
    .badResponse resp.statusCode resp.status (some resp.body)
  else
    match decode resp.body with
    | some ms => .ok ms
    | none => .decodeErr

/-- What `http.Client.Do` handed back: `success` is a response with nil
error; `failure` is a non-nil error, in which case the response is nil except
in the `CheckRedirect` corner case, where Go documents a non-nil response. -/
inductive DoResult where
  | success (resp : HttpResponse)
  | failure (resp : Option HttpResponse)
deriving DecidableEq

/-- `BayeuxTransportHttp.request` after the body was encoded and the request
built (`bayeux_transport_http.go:62-66`): on a `Do` error the code evaluates
`response.StatusCode` / `response.Status` to build
`BadResponseError{.., .., nil}` — when the response is nil (every
network-level failure) that expression dereferences a nil pointer. -/
def httpRequest (decode : List Nat → Option (List Message)) (d : DoResult) :
    HttpResult :=
  match d with
  | .success resp => parseResponse decode resp
  | .failure (some resp) => .badResponse resp.statusCode resp.status none
  | .failure none => .panicNilDeref

/-- C2. Claim: a non-200 status makes the call fail with `BadResponse`
carrying the literal status code, status text and raw body bytes; a
transport/network-level failure (no response obtained) makes it fail with a
`BadResponse` with no body "rather than crashing".  The first half holds
(evaluated at a 503 response with body bytes `[104,105]`), but the second is
violated: with no response obtained, `request` dereferences the nil
`*http.Response` at `bayeux_transport_http.go:64` and panics. -/
theorem httpTransportNilResponsePanics :
    httpRequest (fun _ => some []) (.failure none) = .panicNilDeref
    ∧ httpRequest (fun _ => some [])
        (.success { statusCode := 503, status := "503 Service Unavailable",
                    body := [104, 105] })
      = .badResponse 503 "503 Service Unavailable" (some [104, 105])
    ∧ HttpResult.panicNilDeref ≠ .badResponse 503 "503 Service Unavailable" none := by
  refine ⟨rfl, rfl, ?_⟩
  intro h
  exact HttpResult.noConfusion h

/-! ## Protocol client: handshake reply validation
(`bayeux_transport_websocket.go:186-237`) -/

/-- The `for _, m := range resp` scan of `Handshake`
(`bayeux_transport_websocket.go:221-226`): `message` starts as the zero-value
`Message` and is overwritten by every reply message whose channel is the
handshake meta-channel, so it ends as the last such message. -/
def findHandshakeMessage (resp : List Message) : Message :=
  resp.foldl (fun acc m => if m.channel == MetaHandshake then m else acc) {}

/-- Outcome of `Handshake`'s validation of the reply batch. -/
inductive HandshakeOutcome where
  | tooManyMessages
  | badChannel
  | serverError (serverError : String)
  | success (clientID : String)
deriving DecidableEq

/-- `Handshake`'s validation of the transport reply
(`bayeux_transport_websocket.go:217-236`): more than one message is rejected
with `ErrTooManyMessages`; then the handshake-channel message is located (the
zero value, whose channel is empty, means absence and fails
`ErrBadChannel`); an unsuccessful handshake message fails with the
server-reported error; otherwise the assigned client-id is stored. -/
def handshakeValidate (resp : List Message) : HandshakeOutcome :=
  if resp.length > 1 then
    .tooManyMessages
  else
    let message := findHandshakeMessage resp
    if message.channel == emptyChannel then
      .badChannel
    else if !message.successful then
      .serverError message.error
    else
      .success message.clientID

/-- C3. Handshake reply validation: two or more messages fail
`TooManyMessages` regardless of channel content; a batch (necessarily of at
most one message, the earlier check having passed) with no message on the
handshake meta-channel — including the empty batch — fails `BadChannel`; a
single handshake-channel message with `successful=false` fails with the
server-reported error; and Handshake succeeds exactly on a single successful
handshake-channel message. -/
theorem handshakeReplyValidation (resp : List Message) :
    (2 ≤ resp.length → handshakeValidate resp = .tooManyMessages)
    ∧ (resp.length ≤ 1 → (∀ m ∈ resp, m.channel ≠ MetaHandshake) →
        handshakeValidate resp = .badChannel)
    ∧ (∀ m, resp = [m] → m.channel = MetaHandshake → m.successful = false →
        handshakeValidate resp = .serverError m.error)
    ∧ (∀ cid, handshakeValidate resp = .success cid ↔
        ∃ m, resp = [m] ∧ m.channel = MetaHandshake ∧ m.successful = true
          ∧ m.clientID = cid) := by
  refine ⟨?_, ?_, ?_, ?_⟩
  · intro h
    unfold handshakeValidate
    split
    · rfl
    · next hnlt => omega
  · intro hlen hnone
    match resp with
    | [] => rfl
    | [m] =>
      have hm : m.channel ≠ MetaHandshake := hnone m (List.mem_singleton.mpr rfl)
      simp [handshakeValidate, findHandshakeMessage, hm, emptyChannel]
    | m1 :: m2 :: rest => simp at hlen
  · intro m hresp hch hsucc
    subst hresp
    simp [handshakeValidate, findHandshakeMessage, hch, hsucc, MetaHandshake,
      emptyChannel]
  · intro cid
    constructor
    · intro h
      match resp, h with
      | [], h => simp [handshakeValidate, findHandshakeMessage, emptyChannel] at h
      | [m], h =>
        by_cases hm : m.channel = MetaHandshake
        · by_cases hs : m.successful
          · refine ⟨m, rfl, hm, hs, ?_⟩
            simpa [handshakeValidate, findHandshakeMessage, hm, hs,
              MetaHandshake, emptyChannel] using h
          · exfalso
            simp [handshakeValidate, findHandshakeMessage, hm,
              Bool.eq_false_iff.mpr hs, MetaHandshake, emptyChannel] at h
        · exfalso
          simp [handshakeValidate, findHandshakeMessage, hm, emptyChannel] at h
      | m1 :: m2 :: rest, h =>
        exfalso
        unfold handshakeValidate at h
        rw [if_pos (by simp)] at h
        exact HandshakeOutcome.noConfusion h
    · rintro ⟨m, rfl, hch, hs, rfl⟩
      simp [handshakeValidate, findHandshakeMessage, hch, hs, MetaHandshake,
        emptyChannel]

/-- Witness for the handshake-validation theorem at concrete batches: the
two-message batch fails `TooManyMessages`, the empty batch fails
`BadChannel`, a failed single handshake message reports the server error,
and a successful one succeeds with the assigned client-id. -/
theorem handshakeReplyValidationWitness :
    handshakeValidate [{ channel := MetaHandshake }, { channel := MetaHandshake }]
      = .tooManyMessages
    ∧ handshakeValidate [] = .badChannel
    ∧ handshakeValidate [{ channel := MetaHandshake, error := "401::auth" }]
      = .serverError "401::auth"
    ∧ handshakeValidate [{ channel := MetaHandshake, successful := true,
                           clientID := "cid1" }] = .success "cid1" := by
  refine ⟨?_, ?_, ?_, ?_⟩
  · exact (handshakeReplyValidation _).1 (by simp)
  · exact (handshakeReplyValidation _).2.1 (by simp) (by simp)
  · exact (handshakeReplyValidation _).2.2.1 _ rfl rfl rfl
  · exact ((handshakeReplyValidation _).2.2.2 "cid1").mpr
      ⟨_, rfl, rfl, rfl, rfl⟩

/-! ## Websocket transport (`bayeux_transport_websocket.go`) -/

/-- Websocket frame kinds as distinguished by the read loop
(`websocket.TextMessage` versus anything else). -/
inductive WsMessageType where
  | text
  | binary
  | other
deriving DecidableEq

/-- The conditions reported on the side error channel by the read loop. -/
inductive WsSideError where
  | unsupported
  | undelivered
  | bad (message : String)
deriving DecidableEq

/-- Shared state of `BayeuxTransportWebsocket`: the `ready` atomic flag, the
`openRequest` atomic `Uint32` counter, the buffered `msgBuffer` handoff
channel (capacity 100) and the side error channel, both modelled by their
contents. -/
structure WsState where
  ready : Bool
  openRequest : Nat
  msgBuffer : List (List Nat)
  errChan : List WsSideError
deriving DecidableEq

/-- One frame-handling step of `readLoop`
(`bayeux_transport_websocket.go:108-127`): a non-text frame is reported as
unsupported; a text frame is pushed into `msgBuffer` and consumes one unit of
the counter when the counter is positive, and is reported as undelivered
(never handed to a request) when the counter is zero. -/
def wsHandleFrame (st : WsState) (messageType : WsMessageType) (raw : List Nat) :
    WsState :=
  if messageType ≠ .text then
    { st with errChan := st.errChan ++ [.unsupported] }
  else if st.openRequest > 0 then
    { st with msgBuffer := st.msgBuffer ++ [raw],
              openRequest := st.openRequest - 1 }
  else
    { st with errChan := st.errChan ++ [.undelivered] }

/-- How far `BayeuxTransportWebsocket.request` got before blocking. -/
inductive WsRequestStart where
  | notReady
  | writeError
  | awaitingReply (st : WsState)
deriving DecidableEq

/-- The non-blocking prefix of `BayeuxTransportWebsocket.request`
(`bayeux_transport_websocket.go:46-57`): an immediate `NotReady`-style error
when the ready flag is false; otherwise, after a successful `WriteJSON`
(`writeOk`), the outstanding counter is incremented (a wrapping `Uint32`
add) and the call blocks on `msgBuffer`. -/
def wsRequestStart (st : WsState) (writeOk : Bool) : WsRequestStart :=
  if !st.ready then .notReady
  else if !writeOk then .writeError
  else .awaitingReply { st with openRequest := (st.openRequest + 1) % 4294967296 }

/-- The blocked receive `<-t.msgBuffer` can complete exactly when the handoff
channel is non-empty. -/
def wsCanReceive (st : WsState) : Bool :=
  !st.msgBuffer.isEmpty

/-- C4. A websocket `request` issued while the connection is not ready fails
immediately with the not-ready error, without blocking; an in-flight request
(blocked on the empty handoff channel) is unblocked by exactly those frames
that are text frames arriving while the outstanding counter is positive, and
such a frame consumes one unit of the counter; a text frame arriving while
the counter is zero leaves the handoff channel untouched and is reported as
undelivered on the side error channel. -/
theorem websocketRequestReadiness (st : WsState) (mt : WsMessageType)
    (raw : List Nat) (writeOk : Bool) :
    (st.ready = false → wsRequestStart st writeOk = .notReady)
    ∧ (st.msgBuffer = [] →
        (wsCanReceive (wsHandleFrame st mt raw) = true ↔
          mt = .text ∧ 0 < st.openRequest))
    ∧ (mt = .text → 0 < st.openRequest →
        (wsHandleFrame st mt raw).msgBuffer = st.msgBuffer ++ [raw]
        ∧ (wsHandleFrame st mt raw).openRequest = st.openRequest - 1
        ∧ (wsHandleFrame st mt raw).errChan = st.errChan)
    ∧ (mt = .text → st.openRequest = 0 →
        wsHandleFrame st mt raw
          = { st with errChan := st.errChan ++ [.undelivered] }) := by
  refine ⟨?_, ?_, ?_, ?_⟩
  · intro h
    simp [wsRequestStart, h]
  · intro hempty
    constructor
    · intro hcan
      by_cases hmt : mt = WsMessageType.text
      · subst hmt
        refine ⟨rfl, ?_⟩
        by_cases hop : 0 < st.openRequest
        · exact hop
        · exfalso
          have h0 : st.openRequest = 0 := by omega
          simp [wsCanReceive, wsHandleFrame, h0, hempty] at hcan
      · exfalso
        simp [wsCanReceive, wsHandleFrame, hmt, hempty] at hcan
    · rintro ⟨hmt, hop⟩
      subst hmt
      simp [wsCanReceive, wsHandleFrame, hop]
  · intro hmt hop
    subst hmt
    refine ⟨?_, ?_, ?_⟩ <;> simp [wsHandleFrame, hop]
  · intro hmt h0
    subst hmt
    simp [wsHandleFrame, h0]

/-- Witness for the websocket readiness theorem: from a not-ready state the
request fails immediately; a text frame on a one-outstanding-request state
unblocks the receive and consumes the counter unit; a text frame on a
zero-counter state is reported as undelivered instead. -/
theorem websocketRequestReadinessWitness :
    wsRequestStart { ready := false, openRequest := 0, msgBuffer := [],
                     errChan := [] } true = .notReady
    ∧ wsCanReceive (wsHandleFrame { ready := true, openRequest := 1,
                                    msgBuffer := [], errChan := [] } .text [7])
        = true
    ∧ wsHandleFrame { ready := true, openRequest := 0, msgBuffer := [],
                      errChan := [] } .text [7]
      = { ready := true, openRequest := 0, msgBuffer := [],
          errChan := [.undelivered] } := by
  refine ⟨?_, ?_, ?_⟩
  · exact (websocketRequestReadiness
      { ready := false, openRequest := 0, msgBuffer := [], errChan := [] }
      .text [7] true).1 rfl
  · exact (websocketRequestReadiness
      { ready := true, openRequest := 1, msgBuffer := [], errChan := [] }
      .text [7] true).2.1 rfl |>.mpr ⟨rfl, by decide⟩
  · exact (websocketRequestReadiness
      { ready := true, openRequest := 0, msgBuffer := [], errChan := [] }
      .text [7] true).2.2.2 rfl rfl

/-! ## High-level client construction (`client.go:105-117`) -/

/-- The capacities of the five internal queues created by `NewClient`
(`client.go:108-112`): `make(chan subscriptionRequest, 10)`,
`make(chan Channel, 10)`, `make(chan struct\x7b\x7d, 1)`,
`make(chan []Message, 5)` and `make(chan struct\x7b\x7d)` — the last one,
the handshake-trigger queue, is created with no capacity argument. -/
structure ClientQueues where
  subscribeRequestCapacity : Nat
  unsubscribeRequestCapacity : Nat
  connectRequestCapacity : Nat
  connectMessageCapacity : Nat
  handshakeRequestCapacity : Nat
deriving DecidableEq

/-- The queue capacities `NewClient` actually uses. -/
def newClientQueues : ClientQueues :=
  { subscribeRequestCapacity := 10
    unsubscribeRequestCapacity := 10
    connectRequestCapacity := 1
    connectMessageCapacity := 5
    handshakeRequestCapacity := 0 }

/-- C7. Claim: every one of the five internal queues has capacity at least
one, so an enqueue never requires a simultaneous receiver.  Four do, but the
handshake-trigger queue is created unbuffered (`make(chan struct\x7b\x7d)` at
`client.go:112`, capacity 0), so the loop's own blocking send to it at
`client.go:266` needs a simultaneous receiver — and the only receiver is the
loop itself. -/
theorem newClientHandshakeQueueUnbuffered :
    newClientQueues.subscribeRequestCapacity = 10
    ∧ newClientQueues.unsubscribeRequestCapacity = 10
    ∧ newClientQueues.connectRequestCapacity = 1
    ∧ newClientQueues.connectMessageCapacity = 5
    ∧ newClientQueues.handshakeRequestCapacity = 0
    ∧ ¬ 1 ≤ newClientQueues.handshakeRequestCapacity := by
  exact ⟨rfl, rfl, rfl, rfl, rfl, by decide⟩

/-! ## Protocol client (`BayeuxClientT`, second half of
`bayeux_transport_websocket.go`) -/

/-- A message extension: the pair of hooks invoked for every outgoing and
incoming message.  Each hook is modelled as the state change it performs,
through the pointer it receives, on the `Message` it is given. -/
structure MessageExtender where
  outgoing : Message → Message
  incoming : Message → Message

/-- One extension pass over a batch as written in `BayeuxClientT.request`
(`bayeux_transport_websocket.go:393-397` and `403-407`):
`for _, m := range ms \x7b hook(&m) \x7d`.  Go's `range` copies each element
into the loop variable `m`, the hook mutates that per-iteration copy through
`&m`, and the copy is dropped at the end of the iteration; the slice handed
in is left unchanged and is what the surrounding code keeps using. -/
def rangeHookPass (hook : Message → Message) (ms : List Message) : List Message :=
  let _mutatedCopies := ms.map hook
  ms

/-- All registered outgoing hooks, in registration order
(`bayeux_transport_websocket.go:393-397`). -/
def outgoingPass (exts : List MessageExtender) (ms : List Message) : List Message :=
  exts.foldl (fun acc ext => rangeHookPass ext.outgoing acc) ms

/-- All registered incoming hooks, in registration order
(`bayeux_transport_websocket.go:403-407`). -/
def incomingPass (exts : List MessageExtender) (ms : List Message) : List Message :=
  exts.foldl (fun acc ext => rangeHookPass ext.incoming acc) ms

/-- `BayeuxClientT.request` (`bayeux_transport_websocket.go:392-409`):
outgoing hooks, transport round-trip, incoming hooks. -/
def bcRequest (exts : List MessageExtender)
    (tr : List Message → Except String (List Message)) (ms : List Message) :
    Except String (List Message) :=
  match tr (outgoingPass exts ms) with
  | .error e => .error e
  | .ok respMs => .ok (incomingPass exts respMs)

theorem rangeHookPass_id (hook : Message → Message) (ms : List Message) :
    rangeHookPass hook ms = ms := rfl

theorem outgoingPass_id (exts : List MessageExtender) (ms : List Message) :
    outgoingPass exts ms = ms := by
  induction exts generalizing ms with
  | nil => rfl
  | cons e es ih => exact ih ms

theorem incomingPass_id (exts : List MessageExtender) (ms : List Message) :
    incomingPass exts ms = ms := by
  induction exts generalizing ms with
  | nil => rfl
  | cons e es ih => exact ih ms

/-- C9. Extension hooks run on a pointer to a per-iteration copy of each
message, so whatever a hook does is discarded: the batch handed to the
transport is exactly the caller's batch, and the whole round trip returns
the same thing it would return with no extensions registered. -/
theorem extensionMutationsDiscarded (exts : List MessageExtender)
    (tr : List Message → Except String (List Message)) (ms : List Message) :
    outgoingPass exts ms = ms
    ∧ bcRequest exts tr ms = bcRequest [] tr ms := by
  refine ⟨outgoingPass_id exts ms, ?_⟩
  unfold bcRequest
  rw [outgoingPass_id, outgoingPass_id]
  cases tr ms with
  | error e => rfl
  | ok respMs => simp only [incomingPass_id]

/-- Modelled from the spec: the handshake request produced by
`NewHandshakeRequestBuilder` (`request_builders.go` is not under `src/`):
one message on the handshake meta-channel carrying the protocol `version`
and the accumulated `supportedConnectionTypes` list. -/
def handshakeRequestBuild (version : String) (supported : List String) :
    List Message :=
  [{ channel := MetaHandshake, version := version,
     supportedConnectionTypes := supported }]

/-- The request-building section of `BayeuxClientT.Handshake`
(`bayeux_transport_websocket.go:194-209`): version "1.0"; long-polling is
always added as a supported connection type; websocket is added exactly when
the owned transport's `transportType()` is websocket. -/
def handshakeRequestOf (transportTypeStr : String) : List Message :=
  let supported :=
    if transportTypeStr = ConnectionTypeWebsocket then
      [ConnectionTypeLongPolling] ++ [ConnectionTypeWebsocket]
    else
      [ConnectionTypeLongPolling]
  handshakeRequestBuild "1.0" supported

/-- C8. For every transport, the handshake request carries protocol version
"1.0" and a supported-connection-type list that always contains
long-polling, and contains websocket if and only if the owned transport's
`transportType()` is websocket. -/
theorem handshakeRequestContents (transportTypeStr : String) :
    ∃ m, handshakeRequestOf transportTypeStr = [m]
      ∧ m.version = "1.0"
      ∧ ConnectionTypeLongPolling ∈ m.supportedConnectionTypes
      ∧ (ConnectionTypeWebsocket ∈ m.supportedConnectionTypes ↔
          transportTypeStr = ConnectionTypeWebsocket) := by
  by_cases h : transportTypeStr = ConnectionTypeWebsocket
  · refine ⟨{ channel := MetaHandshake, version := "1.0",
              supportedConnectionTypes :=
                [ConnectionTypeLongPolling, ConnectionTypeWebsocket] },
      ?_, rfl, ?_, ?_⟩
    · simp [handshakeRequestOf, handshakeRequestBuild, h]
    · simp
    · simp [h]
  · refine ⟨{ channel := MetaHandshake, version := "1.0",
              supportedConnectionTypes := [ConnectionTypeLongPolling] },
      ?_, rfl, ?_, ?_⟩
    · simp [handshakeRequestOf, handshakeRequestBuild, h]
    · simp
    · constructor
      · intro hmem
        exfalso
        simp [ConnectionTypeWebsocket, ConnectionTypeLongPolling] at hmem
      · intro hh
        exact absurd hh h

/-- Modelled from the spec: the connect request built by
`NewConnectRequestBuilder` — one message on the connect meta-channel
carrying the client-id and the transport's connection type. -/
def connectRequestBuild (clientID : String) (connectionType : String) :
    List Message :=
  [{ channel := MetaConnect, clientID := clientID,
     connectionType := connectionType }]

/-- Modelled from the spec: the subscribe request built by
`NewSubscribeRequestBuilder` — one batched message on the subscribe
meta-channel carrying the client-id and the full channel list. -/
def subscribeRequestBuild (clientID : String) (subs : List String) :
    List Message :=
  [{ channel := MetaSubscribe, clientID := clientID, subscription := subs }]

/-- Modelled from the spec: the unsubscribe request built by
`NewUnsubscribeRequestBuilder`. -/
def unsubscribeRequestBuild (clientID : String) (subs : List String) :
    List Message :=
  [{ channel := MetaUnsubscribe, clientID := clientID, subscription := subs }]

/-- Modelled from the spec: the disconnect request built by
`NewDisconnectRequestBuilder` — one message on the disconnect meta-channel
carrying the client-id. -/
def disconnectRequestBuild (clientID : String) : List Message :=
  [{ channel := MetaDisconnect, clientID := clientID }]

/-- Result of one protocol-client method call plus the batches it actually
handed to the transport. -/
structure CallOut where
  result : Except BCError (List Message)
  sent : List (List Message)

/-- `BayeuxClientT.Connect` (`bayeux_transport_websocket.go:242-271`):
requires `IsConnected()` and a non-empty client-id (modelled by the
`connected` flag and `clientID`), else fails `ErrClientNotConnected` before
anything reaches the transport; otherwise one connect request goes out and
an unsuccessful reply message on the connect meta-channel fails
`ConnectionFailed`. -/
def bcConnect (exts : List MessageExtender) (connected : Bool)
    (clientID : String) (transportTypeStr : String)
    (tr : List Message → Except String (List Message)) : CallOut :=
  if !connected || clientID == "" then
    { result := .error .clientNotConnected, sent := [] }
  else
    let ms := connectRequestBuild clientID transportTypeStr
    match bcRequest exts tr ms with
    | .error e =>
      { result := .error (.connectionFailed (.transportErr e)), sent := [ms] }
    | .ok resp =>
      if resp.any (fun m => m.channel == MetaConnect && !m.successful) then
        { result := .error (.connectionFailed .failedToConnect), sent := [ms] }
      else
        { result := .ok resp, sent := [ms] }

/-- `BayeuxClientT.Subscribe` (`bayeux_transport_websocket.go:275-313`): the
same connection guard, failing `SubscriptionFailedError` carrying the
channel list; then each channel is added to the builder (the first invalid
channel aborts — `validChannel` stands for the channel-grammar check of the
builder); one batched request goes out; an unsuccessful reply on the
subscribe meta-channel fails with the server-reported error and the channel
list. -/
def bcSubscribe (exts : List MessageExtender) (validChannel : String → Bool)
    (connected : Bool) (clientID : String)
    (tr : List Message → Except String (List Message))
    (subscriptions : List String) : CallOut :=
  if !connected || clientID == "" then
    { result := .error (.subscriptionFailed subscriptions .clientNotConnected),
      sent := [] }
  else
    match subscriptions.find? (fun s => !validChannel s) with
    | some bad =>
      { result := .error (.subscriptionFailed subscriptions (.invalidChannel bad)),
        sent := [] }
    | none =>
      let ms := subscribeRequestBuild clientID subscriptions
      match bcRequest exts tr ms with
      | .error e =>
        { result := .error (.subscriptionFailed subscriptions (.transportErr e)),
          sent := [ms] }
      | .ok resp =>
        match resp.find? (fun m => m.channel == MetaSubscribe && !m.successful) with
        | some m =>
          { result := .error (.subscriptionFailed subscriptions
              (.subscribeServerError m.error)), sent := [ms] }
        | none => { result := .ok resp, sent := [ms] }

/-- `BayeuxClientT.Unsubscribe` (`bayeux_transport_websocket.go:317-350`):
the unsubscribe twin of `bcSubscribe`. -/
def bcUnsubscribe (exts : List MessageExtender) (validChannel : String → Bool)
    (connected : Bool) (clientID : String)
    (tr : List Message → Except String (List Message))
    (subscriptions : List String) : CallOut :=
  if !connected || clientID == "" then
    { result := .error (.unsubscribeFailed subscriptions .clientNotConnected),
      sent := [] }
  else
    match subscriptions.find? (fun s => !validChannel s) with
    | some bad =>
      { result := .error (.unsubscribeFailed subscriptions (.invalidChannel bad)),
        sent := [] }
    | none =>
      let ms := unsubscribeRequestBuild clientID subscriptions
      match bcRequest exts tr ms with
      | .error e =>
        { result := .error (.unsubscribeFailed subscriptions (.transportErr e)),
          sent := [ms] }
      | .ok resp =>
        match resp.find? (fun m => m.channel == MetaUnsubscribe && !m.successful) with
        | some m =>
          { result := .error (.unsubscribeFailed subscriptions
              (.unsubscribeServerError m.error)), sent := [ms] }
        | none => { result := .ok resp, sent := [ms] }

/-- `BayeuxClientT.Disconnect` (`bayeux_transport_websocket.go:354-378`):
the same guard, failing `DisconnectFailedError{ErrClientNotConnected}`; a
server-reported failure on the disconnect meta-channel fails
`DisconnectFailedError{nil}` with no further detail. -/
def bcDisconnect (exts : List MessageExtender) (connected : Bool)
    (clientID : String)
    (tr : List Message → Except String (List Message)) : CallOut :=
  if !connected || clientID == "" then
    { result := .error (.disconnectFailed .clientNotConnected), sent := [] }
  else
    let ms := disconnectRequestBuild clientID
    match bcRequest exts tr ms with
    | .error e =>
      { result := .error (.disconnectFailed (.transportErr e)), sent := [ms] }
    | .ok resp =>
      if resp.any (fun m => m.channel == MetaDisconnect && !m.successful) then
        { result := .error .disconnectFailedNoDetail, sent := [ms] }
      else
        { result := .ok resp, sent := [ms] }

/-- C5. Whenever `IsConnected()` is false or the stored client-id is empty —
in particular before any successful handshake — Connect, Subscribe,
Unsubscribe and Disconnect each fail with their `ClientNotConnected` error
and hand nothing to the transport. -/
theorem methodsRequireConnection (exts : List MessageExtender)
    (validChannel : String → Bool) (connected : Bool) (clientID : String)
    (transportTypeStr : String)
    (tr : List Message → Except String (List Message))
    (channels : List String)
    (h : connected = false ∨ clientID = "") :
    bcConnect exts connected clientID transportTypeStr tr
      = { result := .error .clientNotConnected, sent := [] }
    ∧ bcSubscribe exts validChannel connected clientID tr channels
      = { result := .error (.subscriptionFailed channels .clientNotConnected),
          sent := [] }
    ∧ bcUnsubscribe exts validChannel connected clientID tr channels
      = { result := .error (.unsubscribeFailed channels .clientNotConnected),
          sent := [] }
    ∧ bcDisconnect exts connected clientID tr
      = { result := .error (.disconnectFailed .clientNotConnected),
          sent := [] } := by
  have hg : (!connected || clientID == "") = true := by
    rcases h with h | h
    · simp [h]
    · simp [h]
  refine ⟨?_, ?_, ?_, ?_⟩ <;>
    simp [bcConnect, bcSubscribe, bcUnsubscribe, bcDisconnect, hg]

/-- Witness for the connection-guard theorem: a client whose state machine
is not in `CONNECTED` (here: fresh, with a leftover client-id) rejects all
four calls with `ClientNotConnected` and sends nothing. -/
theorem methodsRequireConnectionWitness :
    bcConnect [] false "cid" ConnectionTypeWebsocket (fun _ => .ok [])
      = { result := .error .clientNotConnected, sent := [] }
    ∧ bcSubscribe [] (fun _ => true) false "cid" (fun _ => .ok []) ["/foo/bar"]
      = { result := .error (.subscriptionFailed ["/foo/bar"] .clientNotConnected),
          sent := [] }
    ∧ bcUnsubscribe [] (fun _ => true) false "cid" (fun _ => .ok []) ["/foo/bar"]
      = { result := .error (.unsubscribeFailed ["/foo/bar"] .clientNotConnected),
          sent := [] }
    ∧ bcDisconnect [] false "cid" (fun _ => .ok [])
      = { result := .error (.disconnectFailed .clientNotConnected),
          sent := [] } :=
  methodsRequireConnection [] (fun _ => true) false "cid"
    ConnectionTypeWebsocket (fun _ => .ok []) ["/foo/bar"] (Or.inl rfl)

/-! ## High-level `Client.Disconnect` (`client.go:138-146`) -/

/-- The closed/signalled status of the high-level client's internal
channels: the five request queues plus the separate `shutdown` channel the
loop selects on. -/
structure HighLevelClientState where
  subscribeClosed : Bool := false
  unsubscribeClosed : Bool := false
  connectRequestClosed : Bool := false
  connectMessageClosed : Bool := false
  handshakeRequestClosed : Bool := false
  shutdownSignalled : Bool := false
deriving DecidableEq

/-- `Client.Disconnect` (`client.go:138-146`): the protocol-level
`Disconnect` result is captured first (`underlying`), then the five request
queues are closed unconditionally, and exactly the underlying error is
returned.  The `shutdown` channel is not touched. -/
def clientDisconnect (underlying : Except BCError (List Message))
    (st : HighLevelClientState) : Option BCError × HighLevelClientState :=
  ((match underlying with
    | .error e => some e
    | .ok _ => none),
   { st with subscribeClosed := true, unsubscribeClosed := true,
             connectRequestClosed := true, connectMessageClosed := true,
             handshakeRequestClosed := true })

/-- What a Go channel send does depending on the channel's closed status:
sending on a closed channel panics at runtime. -/
inductive QueueSendOutcome where
  | panicClosed
  | accepted
deriving DecidableEq

def sendOnQueue (closed : Bool) : QueueSendOutcome :=
  if closed then .panicClosed else .accepted

/-- `Client.Subscribe` (`client.go:120-122`) sends on the subscribe request
queue. -/
def clientSubscribeSend (st : HighLevelClientState) : QueueSendOutcome :=
  sendOnQueue st.subscribeClosed

/-- `Client.Unsubscribe` (`client.go:125-127`) sends on the unsubscribe
request queue. -/
def clientUnsubscribeSend (st : HighLevelClientState) : QueueSendOutcome :=
  sendOnQueue st.unsubscribeClosed

/-- C10. `Client.Disconnect` always closes all five internal queues before
returning — also when the protocol-level Disconnect failed — and returns
exactly the underlying error; afterwards a `Subscribe` or `Unsubscribe`
call operates on a closed queue (its send panics). -/
theorem disconnectClosesQueues (e : BCError) (ms : List Message)
    (st : HighLevelClientState) :
    (clientDisconnect (.error e) st).1 = some e
    ∧ (clientDisconnect (.ok ms) st).1 = none
    ∧ ∀ underlying : Except BCError (List Message),
        (clientDisconnect underlying st).2.subscribeClosed = true
        ∧ (clientDisconnect underlying st).2.unsubscribeClosed = true
        ∧ (clientDisconnect underlying st).2.connectRequestClosed = true
        ∧ (clientDisconnect underlying st).2.connectMessageClosed = true
        ∧ (clientDisconnect underlying st).2.handshakeRequestClosed = true
        ∧ clientSubscribeSend (clientDisconnect underlying st).2 = .panicClosed
        ∧ clientUnsubscribeSend (clientDisconnect underlying st).2 = .panicClosed := by
  refine ⟨rfl, rfl, fun underlying => ?_⟩
  cases underlying <;> exact ⟨rfl, rfl, rfl, rfl, rfl, rfl, rfl⟩

/-! ## Session loop (`Client.poll`, `client.go:190-310`) -/

/-- A queued subscription request (`subscriptionRequest`,
`client.go:354-357`). -/
structure SubRequest where
  subscription : String
  msgChan : Nat
deriving DecidableEq

/-- The protocol-affecting state the loop owns: the subscriptions map. -/
structure LoopState where
  subscriptions : List (String × Nat)
deriving DecidableEq

/-- The branch of `poll`'s `select` that fires in one iteration, together
with the environment's response to the blocking protocol call that branch
performs (the server reply cannot be derived from loop state, so the event
carries the call's result).  `drained` is what the non-blocking drain of the
respective queue returned before the batched call
(`getSubscriptionRequests` / `getUnsubscriptionRequests`). -/
inductive LoopEvent where
  | shutdownSig
  | ctxDone (err : Option Nat)
  | subscribeReq (first : SubRequest) (drained : List SubRequest)
      (result : Except BCError (List Message))
  | unsubscribeReq (first : String) (drained : List String)
      (result : Except BCError (List Message))
  | handshakeReq (result : Except BCError (List Message))
  | connectMessages (ms : List Message)
  | connectTrigger (result : Except BCError (List Message))
  | defaultNoEvent

/-- What one loop iteration decides: keep looping with the updated state,
exit the loop cleanly (`break _poll_loop`, making `poll` return nil), or
return an error from `poll`. -/
inductive StepOut where
  | continueLoop (st : LoopState)
  | exitClean
  | exitErr (e : LoopError)

/-- One iteration's outcome: the control decision, the errors pushed to the
caller's error stream for ignored failures, and the recorded queue/timer
effects. -/
structure StepResult where
  out : StepOut
  reported : List BCError
  actions : List LoopAction

/-- The registration loop after a successful batched Subscribe
(`client.go:225-234`): each requester's queue is added to the subscriptions
map; a failed add is reported and skipped when the ignore-error policy says
so, and otherwise aborts the loop iteration with that error (the remaining
requests are not registered). -/
def addSubscriptions (ignoreError : BCError → Bool) :
    List (String × Nat) → List BCError → List SubRequest →
    Option BCError × List (String × Nat) × List BCError
  | subs, reported, [] => (none, subs, reported)
  | subs, reported, r :: rest =>
    match subsAdd subs r.subscription r.msgChan with
    | .ok subs2 => addSubscriptions ignoreError subs2 reported rest
    | .error e =>
      if ignoreError e then
        addSubscriptions ignoreError subs (reported ++ [e]) rest
      else
        (some e, subs, reported)

/-- The `connectMessageChannel` case body (`client.go:261-274`): for each
message of the batch, an advice of "handshake" enqueues a re-handshake
trigger (a blocking send), and independently a delayed connect trigger is
scheduled after the advised interval. -/
def connectMessageActions : List Message → List LoopAction
  | [] => []
  | m :: rest =>
    (if shouldHandshake m.advice then [LoopAction.enqueueHandshake] else [])
      ++ LoopAction.scheduleConnect m.advice.interval :: connectMessageActions rest

/-- One iteration of `poll`'s `select` loop (`client.go:190-310`), by cases
on the branch that fired:
* `shutdown` receivable: `break _poll_loop`, clean exit;
* context done: return `ctx.Err()` when non-nil, else break cleanly;
* subscribe request: batched `Subscribe` call; a failure is reported and
  skipped when ignorable, else returned; then each requester is registered
  (`addSubscriptions`) and a connect trigger enqueued;
* unsubscribe request: batched `Unsubscribe`; failure handled the same way;
  on success every channel's registration is removed;
* re-handshake signal: a `Handshake` failure is returned (never ignored), a
  success enqueues a connect trigger;
* connect-reply batch: per-message advice handling, loop continues;
* connect trigger: a `Connect` failure is returned; a success partitions the
  reply with `pollDeliverLoop`, whose missing-subscription error is
  returned;
* default: best-effort connect trigger enqueue. -/
def pollStep (ignoreError : BCError → Bool) (st : LoopState) :
    LoopEvent → StepResult
  | .shutdownSig => { out := .exitClean, reported := [], actions := [] }
  | .ctxDone (some code) =>
    { out := .exitErr (.ctx code), reported := [], actions := [] }
  | .ctxDone none => { out := .exitClean, reported := [], actions := [] }
  | .subscribeReq first drained result =>
    match result with
    | .error e =>
      if ignoreError e then
        { out := .continueLoop st, reported := [e], actions := [] }
      else
        { out := .exitErr (.proto e), reported := [], actions := [] }
    | .ok _ =>
      match addSubscriptions ignoreError st.subscriptions [] (drained ++ [first]) with
      | (some e, _, reported) =>
        { out := .exitErr (.proto e), reported := reported, actions := [] }
      | (none, subs2, reported) =>
        { out := .continueLoop { subscriptions := subs2 }, reported := reported,
          actions := [.enqueueConnect] }
  | .unsubscribeReq first drained result =>
    match result with
    | .error e =>
      if ignoreError e then
        { out := .continueLoop st, reported := [e], actions := [] }
      else
        { out := .exitErr (.proto e), reported := [], actions := [] }
    | .ok _ =>
      { out := .continueLoop
          { subscriptions := (drained ++ [first]).foldl subsRemove st.subscriptions },
        reported := [], actions := [] }
  | .handshakeReq result =>
    match result with
    | .error e => { out := .exitErr (.proto e), reported := [], actions := [] }
    | .ok _ =>
      { out := .continueLoop st, reported := [], actions := [.enqueueConnect] }
  | .connectMessages ms =>
    { out := .continueLoop st, reported := [], actions := connectMessageActions ms }
  | .connectTrigger result =>
    match result with
    | .error e => { out := .exitErr (.proto e), reported := [], actions := [] }
    | .ok ms =>
      match pollDeliverLoop st.subscriptions ms emptyChannel [] with
      | .error e => { out := .exitErr e, reported := [], actions := [] }
      | .ok acts => { out := .continueLoop st, reported := [], actions := acts }
  | .defaultNoEvent =>
    { out := .continueLoop st, reported := [], actions := [.enqueueConnect] }

/-- C6 counterexample. The claim says the loop terminates in exactly two
ways — context cancellation (returning the context's error) and an explicit
Disconnect call (clean exit).  Both parts fail on the code: a failed
`Connect` call terminates the loop with that error although neither the
context was cancelled nor Disconnect called, and `Client.Disconnect` never
signals the `shutdown` channel the loop's clean-exit case waits on
(`client.go:138-146` closes the five request queues only), so an explicit
Disconnect call does not make the loop exit. -/
theorem pollStepThirdTerminationWay :
    (pollStep (fun _ => false) { subscriptions := [] }
        (.connectTrigger (.error (.connectionFailed .failedToConnect)))).out
      = .exitErr (.proto (.connectionFailed .failedToConnect))
    ∧ (clientDisconnect (.ok []) {}).2.shutdownSignalled = false :=
  ⟨rfl, rfl⟩

/-- C6 amended. The loop exits cleanly exactly on a `shutdown`-channel
signal (which no code path, `Client.Disconnect` included, ever sends) or on
a context-done with nil error; a context-done with a non-nil error makes the
loop return that error; and every other termination is an error return from
a failed protocol action — a subscribe, unsubscribe, re-handshake or
connect-trigger iteration (the latter covering both the `Connect` call and
the delivery lookup). -/
theorem pollStepTermination (ignoreError : BCError → Bool) (st : LoopState)
    (ev : LoopEvent) :
    ((pollStep ignoreError st ev).out = .exitClean ↔
      (ev = .shutdownSig ∨ ev = .ctxDone none))
    ∧ (∀ code, ev = .ctxDone (some code) →
        (pollStep ignoreError st ev).out = .exitErr (.ctx code))
    ∧ (∀ e, (pollStep ignoreError st ev).out = .exitErr e →
        (∃ code, ev = .ctxDone (some code) ∧ e = .ctx code)
        ∨ (∃ f d r, ev = .subscribeReq f d r)
        ∨ (∃ f d r, ev = .unsubscribeReq f d r)
        ∨ (∃ r, ev = .handshakeReq r)
        ∨ (∃ r, ev = .connectTrigger r)) := by
  cases ev with
  | shutdownSig =>
    refine ⟨⟨fun _ => Or.inl rfl, fun _ => rfl⟩, ?_, ?_⟩
    · intro code h
      exact LoopEvent.noConfusion h
    · intro e h
      exact StepOut.noConfusion h
  | ctxDone err =>
    cases err with
    | none =>
      refine ⟨⟨fun _ => Or.inr rfl, fun _ => rfl⟩, ?_, ?_⟩
      · intro code h
        injection h with h2
        exact Option.noConfusion h2
      · intro e h
        exact StepOut.noConfusion h
    | some code0 =>
      refine ⟨⟨fun h => StepOut.noConfusion h, ?_⟩, ?_, ?_⟩
      · rintro (h | h)
        · exact LoopEvent.noConfusion h
        · injection h with h2
          exact Option.noConfusion h2
      · intro code h
        injection h with h2
        injection h2 with h3
        subst h3
        rfl
      · intro e h
        refine Or.inl ⟨code0, rfl, ?_⟩
        injection h with h2
        exact h2.symm
  | subscribeReq f d r =>
    refine ⟨⟨?_, ?_⟩, ?_, ?_⟩
    · intro hclean
      exfalso
      cases r with
      | error e =>
        by_cases hig : ignoreError e
        · simp [pollStep, hig] at hclean
        · simp [pollStep, hig] at hclean
      | ok ms =>
        rcases hadd : addSubscriptions ignoreError st.subscriptions [] (d ++ [f])
          with ⟨res, subs2, rep⟩
        cases res with
        | none => simp [pollStep, hadd] at hclean
        | some e => simp [pollStep, hadd] at hclean
    · rintro (h | h) <;> exact LoopEvent.noConfusion h
    · intro code h
      exact LoopEvent.noConfusion h
    · intro e _
      exact Or.inr (Or.inl ⟨f, d, r, rfl⟩)
  | unsubscribeReq f d r =>
    refine ⟨⟨?_, ?_⟩, ?_, ?_⟩
    · intro hclean
      exfalso
      cases r with
      | error e =>
        by_cases hig : ignoreError e
        · simp [pollStep, hig] at hclean
        · simp [pollStep, hig] at hclean
      | ok ms => simp [pollStep] at hclean
    · rintro (h | h) <;> exact LoopEvent.noConfusion h
    · intro code h
      exact LoopEvent.noConfusion h
    · intro e _
      exact Or.inr (Or.inr (Or.inl ⟨f, d, r, rfl⟩))
  | handshakeReq r =>
    refine ⟨⟨?_, ?_⟩, ?_, ?_⟩
    · intro hclean
      exfalso
      cases r with
      | error e => simp [pollStep] at hclean
      | ok ms => simp [pollStep] at hclean
    · rintro (h | h) <;> exact LoopEvent.noConfusion h
    · intro code h
      exact LoopEvent.noConfusion h
    · intro e _
      exact Or.inr (Or.inr (Or.inr (Or.inl ⟨r, rfl⟩)))
  | connectMessages ms =>
    refine ⟨⟨?_, ?_⟩, ?_, ?_⟩
    · intro hclean
      exact StepOut.noConfusion hclean
    · rintro (h | h) <;> exact LoopEvent.noConfusion h
    · intro code h
      exact LoopEvent.noConfusion h
    · intro e h
      exact StepOut.noConfusion h
  | connectTrigger r =>
    refine ⟨⟨?_, ?_⟩, ?_, ?_⟩
    · intro hclean
      exfalso
      cases r with
      | error e => simp [pollStep] at hclean
      | ok ms =>
        cases hdel : pollDeliverLoop st.subscriptions ms emptyChannel [] with
        | error e => simp [pollStep, hdel] at hclean
        | ok acts => simp [pollStep, hdel] at hclean
    · rintro (h | h) <;> exact LoopEvent.noConfusion h
    · intro code h
      exact LoopEvent.noConfusion h
    · intro e _
      exact Or.inr (Or.inr (Or.inr (Or.inr ⟨r, rfl⟩)))
  | defaultNoEvent =>
    refine ⟨⟨?_, ?_⟩, ?_, ?_⟩
    · intro hclean
      exact StepOut.noConfusion hclean
    · rintro (h | h) <;> exact LoopEvent.noConfusion h
    · intro code h
      exact LoopEvent.noConfusion h
    · intro e h
      exact StepOut.noConfusion h

/-- Witness for the amended termination theorem: a context cancelled with a
concrete error makes the loop return exactly that error, and the shutdown
signal makes it exit cleanly. -/
theorem pollStepTerminationWitness :
    (pollStep (fun _ => false) { subscriptions := [] } (.ctxDone (some 5))).out
      = .exitErr (.ctx 5)
    ∧ (pollStep (fun _ => false) { subscriptions := [] } .shutdownSig).out
      = .exitClean :=
  ⟨(pollStepTermination (fun _ => false) { subscriptions := [] }
      (.ctxDone (some 5))).2.1 5 rfl,
   (pollStepTermination (fun _ => false) { subscriptions := [] }
      .shutdownSig).1.mpr (Or.inl rfl)⟩

end Gobayeux
